import Mathlib

/-!
Verification development for the `rich_prompt` HTTP gateway
(`src/main.rs`).  The service renders a system-prompt template, builds a
fixed-shape chat-completion request, sends it through a randomly selected
upstream client and maps the result to an HTTP response.

The embedding below follows the source closely:
  * `Config` / `Context` mirror the structs of the same names;
  * `strfmt` models the `strfmt` crate's template substitution used by
    the handler (`strfmt!(&ctx.system_with_style_template, style)`):
    `\x7bname\x7d` placeholders are substituted from a variable map,
    `\x7b\x7b` and `\x7d\x7d` are literal-brace escapes, an unknown key
    or malformed braces is an error, and unused map entries are ignored
    (format specifications after a colon are not modelled; the program
    never uses them).  Placeholders are parsed by the state machine
    `tokenizeFrom` and substituted by `formatToks`;
  * `rich_prompt` models the handler of the same name; the upstream
    network call is a function parameter, the random draw of
    `rand::thread_rng().gen_range(0..clients.len())` is an arbitrary
    natural number `rand` reduced modulo the pool size, and a Rust panic
    (empty `gen_range` range, out-of-bounds slice index) is the `none` /
    `Outcome.panic` case, distinct from an error response;
  * `serveStart` models the part of `serve` that runs after the config
    file has been read and parsed (both external collaborators): client
    construction, context construction, and the decision to proceed to
    binding the listener.  That code path has no failure point.
-/

namespace RichPrompt

/-- One upstream OpenAI client, as built by `serve` from one API key
(`Client::with_config(OpenAIConfig::new().with_api_key(x))`). -/
structure OpenAIClient where
  api_key : String
deriving DecidableEq, Repr

/-- The `Config` struct deserialized from the TOML file. -/
structure Config where
  bind_addr : String
  system_template : String
  system_with_style_template : String
  api_keys : List String
deriving DecidableEq, Repr

/-- The shared `Context` struct. -/
structure Context where
  openai_clients : List OpenAIClient
  system_template : String
  system_with_style_template : String
deriving DecidableEq, Repr

/-- The `RichPromptReq` struct deserialized from the request body. -/
structure RichPromptReq where
  prompt : String
  style : Option String
deriving DecidableEq, Repr

/-- A token of a parsed template: a literal character or a named
placeholder. -/
inductive Tok where
  | lit (c : Char)
  | ph (name : String)
deriving DecidableEq, Repr

/-- Parser state for template tokenization: outside any brace, just after
an opening brace, inside a placeholder name (accumulator reversed), or
just after a closing brace. -/
inductive TState where
  | normal
  | openBrace
  | inPh (acc : List Char)
  | closeBrace
deriving DecidableEq, Repr

/-- Tokenize a template. Mirrors the `strfmt` crate's scan:
`\x7b\x7b` and `\x7d\x7d` emit literal braces, `\x7b` opens a
placeholder that must be closed by `\x7d`, a lone `\x7d` or an
unterminated placeholder is an error. -/
def tokenizeFrom : TState → List Char → Except Unit (List Tok)
  | TState.normal, [] => Except.ok []
  | TState.normal, c :: cs =>
    if c = '{' then tokenizeFrom TState.openBrace cs
    else if c = '}' then tokenizeFrom TState.closeBrace cs
    else (tokenizeFrom TState.normal cs).map (fun ts => Tok.lit c :: ts)
  | TState.openBrace, [] => Except.error ()
  | TState.openBrace, c :: cs =>
    if c = '{' then (tokenizeFrom TState.normal cs).map (fun ts => Tok.lit '{' :: ts)
    else if c = '}' then (tokenizeFrom TState.normal cs).map (fun ts => Tok.ph "" :: ts)
    else tokenizeFrom (TState.inPh [c]) cs
  | TState.inPh _, [] => Except.error ()
  | TState.inPh acc, c :: cs =>
    if c = '}' then
      (tokenizeFrom TState.normal cs).map (fun ts => Tok.ph (String.mk acc.reverse) :: ts)
    else if c = '{' then Except.error ()
    else tokenizeFrom (TState.inPh (c :: acc)) cs
  | TState.closeBrace, [] => Except.error ()
  | TState.closeBrace, c :: cs =>
    if c = '}' then (tokenizeFrom TState.normal cs).map (fun ts => Tok.lit '}' :: ts)
    else Except.error ()

/-- Substitute the tokens of a parsed template from a variable map.
An unresolvable placeholder name is the crate's `KeyError`; variables
that no placeholder mentions are simply unused. -/
def formatToks (vars : List (String × String)) : List Tok → Except Unit String
  | [] => Except.ok ""
  | Tok.lit c :: ts => (formatToks vars ts).map (fun s => String.mk (c :: s.data))
  | Tok.ph n :: ts =>
    match List.lookup n vars with
    | none => Except.error ()
    | some v => (formatToks vars ts).map (fun s => v ++ s)

/-- The `strfmt` entry point: tokenize, then substitute. -/
def strfmt (tpl : String) (vars : List (String × String)) : Except Unit String :=
  (tokenizeFrom TState.normal tpl.data).bind (formatToks vars)

/-- The system-message rendering at the top of `rich_prompt`:
no style uses `system_template` verbatim; a style value is substituted
into `system_with_style_template` via `strfmt!`, any substitution error
being replaced by the fixed `anyhow!` message. -/
def renderSystem (ctx : Context) (style : Option String) : Except String String :=
  match style with
  | none => Except.ok ctx.system_template
  | some s =>
    match strfmt ctx.system_with_style_template [("style", s)] with
    | Except.ok out => Except.ok out
    | Except.error _ => Except.error "failed to format system_with_style_template"

/-- Message role in the chat-completion request. -/
inductive Role where
  | system
  | user
deriving DecidableEq, Repr

/-- One role-tagged message of the chat-completion request. -/
structure ChatMessage where
  role : Role
  content : String
deriving DecidableEq, Repr

/-- The chat-completion request the handler builds with
`CreateChatCompletionRequestArgs`. -/
structure CompletionRequest where
  max_tokens : Nat
  model : String
  messages : List ChatMessage
  top_p : ℚ
deriving DecidableEq, Repr

/-- The request construction of `rich_prompt`: `max_tokens(512)`,
`model("gpt-3.5-turbo")`, system then user message, `top_p(0.0)`. -/
def buildRequest (system prompt : String) : CompletionRequest :=
  { max_tokens := 512
    model := "gpt-3.5-turbo"
    messages := [{ role := Role.system, content := system },
                 { role := Role.user, content := prompt }]
    top_p := 0 }

/-- The message inside one returned choice; `content` is optional in the
upstream schema. -/
structure ChatResponseMessage where
  content : Option String
deriving DecidableEq, Repr

/-- One returned completion choice. -/
structure ChatChoice where
  message : ChatResponseMessage
deriving DecidableEq, Repr

/-- The upstream response body; only the `choices` array is read. -/
structure CreateChatCompletionResponse where
  choices : List ChatChoice
deriving DecidableEq, Repr

/-- Models `response.choices.pop()`: `Vec::pop` removes and returns the
LAST element, `none` on an empty vector. -/
def popChoice (choices : List ChatChoice) : Option ChatChoice :=
  choices.getLast?

/-- Choice/content extraction of `rich_prompt`:
`choices.pop().ok_or(..)` then `choice.message.content.ok_or(..)`,
with the two `anyhow!` messages of the source. -/
def extractContent (response : CreateChatCompletionResponse) : Except String String :=
  match popChoice response.choices with
  | none => Except.error "choices is empty"
  | some choice =>
    match choice.message.content with
    | none => Except.error "content is empty"
    | some content => Except.ok content

/-- An HTTP response: status code and plain-text body. -/
structure HttpResponse where
  status : Nat
  body : String
deriving DecidableEq, Repr

/-- What one invocation of the handler does to the connection: either a
Rust panic (the request task dies without an HTTP response) or an HTTP
response. -/
inductive Outcome where
  | panic
  | resp (r : HttpResponse)
deriving DecidableEq, Repr

/-- Models `rand::thread_rng().gen_range(0..n)`: `none` models the panic
`gen_range` raises on an empty range (`n = 0`); otherwise some index
`< n`, the unknown random draw `rand` reduced modulo `n`. -/
def genRange (rand n : Nat) : Option Nat :=
  if n = 0 then none else some (rand % n)

/-- The body of the `async` block inside `rich_prompt`: render the
system message, build the request, select a random client, index into
the pool, call upstream, extract the content.  `none` is a panic
(empty `gen_range` range or out-of-bounds index), `some` the `Result`
the outer `match` receives.  `upstream` stands for
`client.chat().create(request)`. -/
def richPromptInner (ctx : Context) (req : RichPromptReq) (rand : Nat)
    (upstream : OpenAIClient → CompletionRequest → Except String CreateChatCompletionResponse) :
    Option (Except String String) :=
  match renderSystem ctx req.style with
  | Except.error e => some (Except.error e)
  | Except.ok system =>
    let request := buildRequest system req.prompt
    match genRange rand ctx.openai_clients.length with
    | none => none
    | some i =>
      match ctx.openai_clients[i]? with
      | none => none
      | some client =>
        match upstream client request with
        | Except.error e => some (Except.error e)
        | Except.ok response => some (extractContent response)

/-- The handler `rich_prompt`: `Ok(content)` becomes a 200 response
whose body is the content, `Err(e)` a 500 response whose body is the
error message; a panic in the block produces no response at all. -/
def rich_prompt (ctx : Context) (req : RichPromptReq) (rand : Nat)
    (upstream : OpenAIClient → CompletionRequest → Except String CreateChatCompletionResponse) :
    Outcome :=
  match richPromptInner ctx req rand upstream with
  | none => Outcome.panic
  | some (Except.ok content) => Outcome.resp { status := 200, body := content }
  | some (Except.error e) => Outcome.resp { status := 500, body := e }

/-- Client construction in `serve`: one client per configured API key,
in order. -/
def buildClients (api_keys : List String) : List OpenAIClient :=
  api_keys.map (fun k => { api_key := k })

/-- Context construction in `serve`. -/
def mkContext (config : Config) : Context :=
  { openai_clients := buildClients config.api_keys
    system_template := config.system_template
    system_with_style_template := config.system_with_style_template }

/-- The part of `serve` that runs once the config file has been read and
parsed: build the clients and the context and proceed to bind the
listener.  The source has no failure point (no `?`, no check on
`api_keys`) between a successfully parsed `Config` and
`serve.bind(...)`, so this is total: it returns the context the
listener starts serving with. -/
def serveStart (config : Config) : Except String Context :=
  Except.ok (mkContext config)

/-! ### Concrete values used for concrete evaluations -/

/-- A concrete config with no API keys. -/
def emptyKeysConfig : Config :=
  { bind_addr := "127.0.0.1:3000", system_template := "t",
    system_with_style_template := "s {style}", api_keys := [] }

/-- A concrete one-client context whose style template has no
placeholder at all. -/
def ctxNoPh : Context :=
  { openai_clients := [{ api_key := "k" }], system_template := "sys",
    system_with_style_template := "You are helpful." }

/-- A concrete one-client context with the single `style` placeholder. -/
def ctxStyle : Context :=
  { openai_clients := [{ api_key := "k" }], system_template := "sys",
    system_with_style_template := "Respond like a {style}." }

/-- A concrete one-client context whose style template names a key other
than `style`. -/
def ctxBadPh : Context :=
  { openai_clients := [{ api_key := "k" }], system_template := "sys",
    system_with_style_template := "Hello {other}!" }

/-- A one-choice message with content. -/
def hiChoice : ChatChoice :=
  { message := { content := some "Hi there" } }

/-- A one-choice response with content. -/
def okResponse : CreateChatCompletionResponse :=
  { choices := [hiChoice] }

/-- A choice whose message has no content. -/
def noContentChoice : ChatChoice :=
  { message := { content := none } }

/-- A concrete style-less request. -/
def helloReq : RichPromptReq :=
  { prompt := "Hello", style := none }

/-! ### Helper lemmas -/

lemma getElem?_pool (ctx : Context) (i : Nat) (h : i < ctx.openai_clients.length) :
    ∃ cl, ctx.openai_clients[i]? = some cl :=
  ⟨_, List.getElem?_eq_getElem h⟩

lemma length_ne_zero_of_ne_nil {α : Type} {l : List α} (h : l ≠ []) : l.length ≠ 0 :=
  fun h0 => h (List.length_eq_zero.mp h0)

/-- With a non-empty pool the async block always produces a `Result`:
no panic is possible past a successful render. -/
lemma inner_ne_none (ctx : Context) (req : RichPromptReq) (rand : Nat)
    (upstream : OpenAIClient → CompletionRequest → Except String CreateChatCompletionResponse)
    (hcl : ctx.openai_clients ≠ []) :
    richPromptInner ctx req rand upstream ≠ none := by
  cases hren : renderSystem ctx req.style with
  | error e => simp [richPromptInner, hren]
  | ok sys =>
    have hlen : ctx.openai_clients.length ≠ 0 := length_ne_zero_of_ne_nil hcl
    have hlt : rand % ctx.openai_clients.length < ctx.openai_clients.length :=
      Nat.mod_lt _ (Nat.pos_of_ne_zero hlen)
    obtain ⟨cl, hget⟩ := getElem?_pool ctx _ hlt
    cases hup : upstream cl (buildRequest sys req.prompt) with
    | error e => simp [richPromptInner, hren, genRange, hcl, if_neg hlen, hget, hup]
    | ok r => simp [richPromptInner, hren, genRange, hcl, if_neg hlen, hget, hup]

/-- Substitution fails exactly when some placeholder's name is missing
from the variable map. -/
lemma formatToks_error_iff (vars : List (String × String)) (ts : List Tok) :
    (∃ e, formatToks vars ts = Except.error e) ↔
      ∃ n, Tok.ph n ∈ ts ∧ List.lookup n vars = none := by
  induction ts with
  | nil => simp [formatToks]
  | cons t rest ih =>
    cases t with
    | lit c =>
      have hmap : (∃ e, ((formatToks vars rest).map
            (fun s => String.mk (c :: s.data))) = Except.error e)
          ↔ (∃ e, formatToks vars rest = Except.error e) := by
        cases formatToks vars rest <;> simp [Except.map]
      simp only [formatToks]
      rw [hmap, ih]
      simp [List.mem_cons]
    | ph n =>
      simp only [formatToks]
      cases hl : List.lookup n vars with
      | none =>
        constructor
        · intro _
          exact ⟨n, List.mem_cons_self _ _, hl⟩
        · intro _
          exact ⟨(), rfl⟩
      | some v =>
        have hmap : (∃ e, ((formatToks vars rest).map
            (fun s => v ++ s)) = Except.error e)
          ↔ (∃ e, formatToks vars rest = Except.error e) := by
          cases formatToks vars rest <;> simp [Except.map]
        rw [hmap, ih]
        constructor
        · rintro ⟨m, hm, hlm⟩
          exact ⟨m, List.mem_cons_of_mem _ hm, hlm⟩
        · rintro ⟨m, hm, hlm⟩
          rcases List.mem_cons.mp hm with heq | hmem
          · have hmn : m = n := by
              injection heq
            rw [hmn, hl] at hlm
            cases hlm
          · exact ⟨m, hmem, hlm⟩

/-- The variable map `strfmt!` builds binds exactly the key `style`. -/
lemma lookup_style (s n : String) :
    List.lookup n [("style", s)] = none ↔ n ≠ "style" := by
  by_cases h : n = "style"
  · simp [List.lookup, h]
  · have hb : (n == "style") = false := beq_eq_false_iff_ne.mpr h
    simp [List.lookup, hb, h]

/-- Tokenizing a brace-free prefix emits its characters as literal
tokens and continues with the rest. -/
lemma tokenizeFrom_nobrace_append (l rest : List Char)
    (h : ∀ c ∈ l, c ≠ '{' ∧ c ≠ '}') :
    tokenizeFrom TState.normal (l ++ rest) =
      (tokenizeFrom TState.normal rest).map (fun ts => l.map Tok.lit ++ ts) := by
  induction l with
  | nil =>
    simp only [List.nil_append, List.map_nil]
    cases tokenizeFrom TState.normal rest <;> simp [Except.map]
  | cons c l ih =>
    have hc := h c (List.mem_cons_self c l)
    have hl : ∀ x ∈ l, x ≠ '{' ∧ x ≠ '}' :=
      fun x hx => h x (List.mem_cons_of_mem _ hx)
    simp only [List.cons_append, tokenizeFrom, if_neg hc.1, if_neg hc.2,
      List.append_eq]
    rw [ih hl]
    cases tokenizeFrom TState.normal rest <;> simp [Except.map]

/-- Tokenizing the placeholder `\x7bstyle\x7d` emits a `style`
placeholder token and continues with the rest. -/
lemma tokenizeFrom_style_placeholder (rest : List Char) :
    tokenizeFrom TState.normal
        ('{' :: 's' :: 't' :: 'y' :: 'l' :: 'e' :: '}' :: rest) =
      (tokenizeFrom TState.normal rest).map (fun ts => Tok.ph "style" :: ts) :=
  rfl

/-- Tokenizing a brace-free string yields exactly its literal tokens. -/
lemma tokenizeFrom_nobrace (l : List Char)
    (h : ∀ c ∈ l, c ≠ '{' ∧ c ≠ '}') :
    tokenizeFrom TState.normal l = Except.ok (l.map Tok.lit) := by
  have := tokenizeFrom_nobrace_append l [] h
  simpa [tokenizeFrom, Except.map] using this

/-- Substituting a list of literal tokens prepends their characters to
whatever the remaining tokens produce. -/
lemma formatToks_lits_append (vars : List (String × String)) (l : List Char)
    (ts : List Tok) :
    formatToks vars (l.map Tok.lit ++ ts) =
      (formatToks vars ts).map (fun s => String.mk (l ++ s.data)) := by
  induction l with
  | nil =>
    simp only [List.map_nil, List.nil_append]
    cases hf : formatToks vars ts with
    | error e => simp [Except.map]
    | ok s =>
      cases s
      simp [Except.map]
  | cons c l ih =>
    simp only [List.map_cons, List.cons_append, formatToks, List.append_eq]
    rw [ih]
    cases formatToks vars ts <;> simp [Except.map]

/-! ### Claims -/

/-- C1, counterexample: with an empty `api_keys` list, the post-parse
part of `serve` succeeds and hands the listener a context whose client
pool is empty — construction does not fail. -/
theorem c1_counterexample :
    serveStart emptyKeysConfig =
      Except.ok { openai_clients := [], system_template := "t",
                  system_with_style_template := "s {style}" } := rfl

/-- C1, amended: pool construction performs no emptiness check.  With an
empty credential list `serveStart` still succeeds, and the service
starts serving with an empty client pool. -/
theorem c1_amended (config : Config) (h : config.api_keys = []) :
    serveStart config = Except.ok (mkContext config) ∧
    (mkContext config).openai_clients = [] :=
  ⟨rfl, by simp [mkContext, buildClients, h]⟩

/-- Witness for `c1_amended` at a concrete empty-key config. -/
theorem c1_amended_witness :
    serveStart emptyKeysConfig = Except.ok (mkContext emptyKeysConfig) ∧
    (mkContext emptyKeysConfig).openai_clients = [] :=
  c1_amended emptyKeysConfig rfl

/-- C2, counterexample: a style template that contains no placeholder at
all does NOT make rendering fail — `strfmt` ignores the unused `style`
variable and returns the template unchanged. -/
theorem c2_counterexample :
    renderSystem ctxNoPh (some "pirate") = Except.ok "You are helpful." := rfl

/-- C2, amended: with a style present, rendering fails (with the fixed
template-error message, surfaced as HTTP 500 by the handler) exactly
when `system_with_style_template` is malformed or mentions a placeholder
whose name is not `style`; a template with no placeholder at all renders
successfully. -/
theorem c2_template_error (ctx : Context) (s : String) (req : RichPromptReq)
    (rand : Nat)
    (upstream : OpenAIClient → CompletionRequest → Except String CreateChatCompletionResponse) :
    ((renderSystem ctx (some s) =
        Except.error "failed to format system_with_style_template") ↔
      (tokenizeFrom TState.normal ctx.system_with_style_template.data =
          Except.error () ∨
       ∃ ts n,
         tokenizeFrom TState.normal ctx.system_with_style_template.data =
           Except.ok ts ∧
         Tok.ph n ∈ ts ∧ n ≠ "style")) ∧
    (req.style = some s →
     renderSystem ctx (some s) =
       Except.error "failed to format system_with_style_template" →
     rich_prompt ctx req rand upstream =
       Outcome.resp { status := 500,
                      body := "failed to format system_with_style_template" }) := by
  constructor
  · unfold renderSystem strfmt
    cases ht : tokenizeFrom TState.normal ctx.system_with_style_template.data with
    | error u =>
      cases u
      simp [Except.bind]
    | ok ts =>
      simp only [Except.bind]
      cases hf : formatToks [("style", s)] ts with
      | ok out =>
        constructor
        · intro hcontra
          simp at hcontra
        · rintro (hcontra | ⟨ts', n, hts, hm, hn⟩)
          · cases hcontra
          · have hts' : ts = ts' := by
              injection hts
            subst hts'
            obtain ⟨e, he⟩ :=
              (formatToks_error_iff [("style", s)] ts).mpr
                ⟨n, hm, (lookup_style s n).mpr hn⟩
            rw [hf] at he
            cases he
      | error u =>
        constructor
        · intro _
          obtain ⟨n, hm, hln⟩ :=
            (formatToks_error_iff [("style", s)] ts).mp ⟨u, hf⟩
          exact Or.inr ⟨ts, n, rfl, hm, (lookup_style s n).mp hln⟩
        · intro _
          rfl
  · intro hstyle hrerr
    simp [rich_prompt, richPromptInner, hstyle, hrerr]

/-- Witness for `c2_template_error`: a template naming a key other than
`style` yields the 500 template-error response. -/
theorem c2_template_error_witness :
    rich_prompt ctxBadPh { prompt := "Hello", style := some "pirate" } 0
        (fun _ _ => Except.ok okResponse) =
      Outcome.resp { status := 500,
                     body := "failed to format system_with_style_template" } :=
  (c2_template_error ctxBadPh "pirate"
      { prompt := "Hello", style := some "pirate" } 0
      (fun _ _ => Except.ok okResponse)).2 rfl rfl

/-- C3: the invoker pops the choices array — it removes and returns the
LAST element — and on a single-choice response this is also the first
(and only) choice, whose message content is extracted. -/
theorem c3_first_choice :
    (∀ (l : List ChatChoice) (x : ChatChoice), popChoice (l ++ [x]) = some x) ∧
    (∀ (response : CreateChatCompletionResponse) (c : ChatChoice),
       response.choices = [c] →
         popChoice response.choices = some c ∧
         response.choices.head? = some c ∧
         extractContent response =
           (match c.message.content with
            | some t => Except.ok t
            | none => Except.error "content is empty")) := by
  constructor
  · intro l x
    simp [popChoice]
  · intro response c h
    refine ⟨by simp [popChoice, h], by simp [h], ?_⟩
    cases hc : c.message.content with
    | none => simp [extractContent, popChoice, h, hc]
    | some t => simp [extractContent, popChoice, h, hc]

/-- Witness for `c3_first_choice` on a one-choice response. -/
theorem c3_first_choice_witness :
    popChoice ([] ++ [hiChoice]) = some hiChoice ∧
    extractContent okResponse = Except.ok "Hi there" :=
  ⟨c3_first_choice.1 [] hiChoice,
   (c3_first_choice.2 okResponse hiChoice rfl).2.2⟩

/-- C4: a request without a style renders `system_template` verbatim —
no substitution is performed on it. -/
theorem c4_no_style (ctx : Context) :
    renderSystem ctx none = Except.ok ctx.system_template := rfl

/-- C5: when `system_with_style_template` consists of brace-free text
around a single `\x7bstyle\x7d` placeholder, rendering with style `s`
succeeds and equals the template with the placeholder replaced by `s`. -/
theorem c5_style_substitution (ctx : Context) (pre post s : String)
    (hpre : ∀ c ∈ pre.data, c ≠ '{' ∧ c ≠ '}')
    (hpost : ∀ c ∈ post.data, c ≠ '{' ∧ c ≠ '}')
    (htpl : ctx.system_with_style_template = pre ++ "{style}" ++ post) :
    renderSystem ctx (some s) = Except.ok (pre ++ s ++ post) := by
  have hdata : ctx.system_with_style_template.data =
      pre.data ++ ('{' :: 's' :: 't' :: 'y' :: 'l' :: 'e' :: '}' :: post.data) := by
    rw [htpl, String.data_append, String.data_append, List.append_assoc]
    rfl
  have htok : tokenizeFrom TState.normal ctx.system_with_style_template.data =
      Except.ok (pre.data.map Tok.lit ++ Tok.ph "style" :: post.data.map Tok.lit) := by
    rw [hdata, tokenizeFrom_nobrace_append _ _ hpre, tokenizeFrom_style_placeholder,
      tokenizeFrom_nobrace _ hpost]
    rfl
  have h2 : formatToks [("style", s)] (post.data.map Tok.lit) =
      Except.ok (String.mk post.data) := by
    have := formatToks_lits_append [("style", s)] post.data []
    simpa [formatToks, Except.map] using this
  have h1 : formatToks [("style", s)] (Tok.ph "style" :: post.data.map Tok.lit) =
      Except.ok (s ++ String.mk post.data) := by
    simp only [formatToks, h2]
    rfl
  have hfmt : formatToks [("style", s)]
      (pre.data.map Tok.lit ++ Tok.ph "style" :: post.data.map Tok.lit) =
      Except.ok (pre ++ s ++ post) := by
    rw [formatToks_lits_append, h1]
    simp only [Except.map]
    congr 1
    apply String.ext
    simp [String.data_append, List.append_assoc]
  unfold renderSystem strfmt
  rw [htok]
  simp only [Except.bind]
  rw [hfmt]

/-- Witness for `c5_style_substitution`: the spec's end-to-end scenario,
template "Respond like a \x7bstyle\x7d." with style `pirate`. -/
theorem c5_style_substitution_witness :
    renderSystem ctxStyle (some "pirate") = Except.ok "Respond like a pirate." :=
  c5_style_substitution ctxStyle "Respond like a " "." "pirate"
    (by decide) (by decide) rfl

/-- C6: every request the invoker builds has the fixed shape — model
`gpt-3.5-turbo`, 512 max tokens, `top_p = 0`, and exactly two messages,
system (rendered template) then user (raw prompt). -/
theorem c6_fixed_shape (system prompt : String) :
    (buildRequest system prompt).model = "gpt-3.5-turbo" ∧
    (buildRequest system prompt).max_tokens = 512 ∧
    (buildRequest system prompt).top_p = 0 ∧
    (buildRequest system prompt).messages =
      [{ role := Role.system, content := system },
       { role := Role.user, content := prompt }] ∧
    (buildRequest system prompt).messages.length = 2 :=
  ⟨rfl, rfl, rfl, rfl, rfl⟩

/-- C7: an upstream response with an empty choices list makes the
handler answer HTTP 500 with the message "choices is empty", never
HTTP 200. -/
theorem c7_empty_choices (ctx : Context) (req : RichPromptReq) (rand : Nat)
    (upstream : OpenAIClient → CompletionRequest → Except String CreateChatCompletionResponse)
    (sys : String) (r : CreateChatCompletionResponse)
    (hren : renderSystem ctx req.style = Except.ok sys)
    (hcl : ctx.openai_clients ≠ [])
    (hup : ∀ client rq, upstream client rq = Except.ok r)
    (hch : r.choices = []) :
    rich_prompt ctx req rand upstream =
      Outcome.resp { status := 500, body := "choices is empty" } ∧
    ∀ body, rich_prompt ctx req rand upstream ≠
      Outcome.resp { status := 200, body := body } := by
  have hlen : ctx.openai_clients.length ≠ 0 := length_ne_zero_of_ne_nil hcl
  have hlt : rand % ctx.openai_clients.length < ctx.openai_clients.length :=
    Nat.mod_lt _ (Nat.pos_of_ne_zero hlen)
  obtain ⟨cl, hget⟩ := getElem?_pool ctx _ hlt
  have h1 : rich_prompt ctx req rand upstream =
      Outcome.resp { status := 500, body := "choices is empty" } := by
    simp [rich_prompt, richPromptInner, hren, genRange, hcl, hget, hup,
      extractContent, popChoice, hch]
  refine ⟨h1, ?_⟩
  intro body hcontra
  rw [h1] at hcontra
  simp at hcontra

/-- Witness for `c7_empty_choices`: a stub upstream returning zero
choices yields the 500 "choices is empty" response. -/
theorem c7_empty_choices_witness :
    rich_prompt ctxNoPh helloReq 0 (fun _ _ => Except.ok { choices := [] }) =
      Outcome.resp { status := 500, body := "choices is empty" } :=
  (c7_empty_choices ctxNoPh helloReq 0 (fun _ _ => Except.ok { choices := [] })
    ctxNoPh.system_template { choices := [] } rfl (by simp [ctxNoPh])
    (fun _ _ => rfl) rfl).1

/-- C8: a choice whose message has no textual content makes the handler
answer HTTP 500 with the message "content is empty", never HTTP 200. -/
theorem c8_no_content (ctx : Context) (req : RichPromptReq) (rand : Nat)
    (upstream : OpenAIClient → CompletionRequest → Except String CreateChatCompletionResponse)
    (sys : String) (r : CreateChatCompletionResponse) (c : ChatChoice)
    (hren : renderSystem ctx req.style = Except.ok sys)
    (hcl : ctx.openai_clients ≠ [])
    (hup : ∀ client rq, upstream client rq = Except.ok r)
    (hch : r.choices = [c])
    (hco : c.message.content = none) :
    rich_prompt ctx req rand upstream =
      Outcome.resp { status := 500, body := "content is empty" } ∧
    ∀ body, rich_prompt ctx req rand upstream ≠
      Outcome.resp { status := 200, body := body } := by
  have hlen : ctx.openai_clients.length ≠ 0 := length_ne_zero_of_ne_nil hcl
  have hlt : rand % ctx.openai_clients.length < ctx.openai_clients.length :=
    Nat.mod_lt _ (Nat.pos_of_ne_zero hlen)
  obtain ⟨cl, hget⟩ := getElem?_pool ctx _ hlt
  have h1 : rich_prompt ctx req rand upstream =
      Outcome.resp { status := 500, body := "content is empty" } := by
    simp [rich_prompt, richPromptInner, hren, genRange, hcl, hget, hup,
      extractContent, popChoice, hch, hco]
  refine ⟨h1, ?_⟩
  intro body hcontra
  rw [h1] at hcontra
  simp at hcontra

/-- Witness for `c8_no_content`: a stub upstream returning one choice
without content yields the 500 "content is empty" response. -/
theorem c8_no_content_witness :
    rich_prompt ctxNoPh helloReq 0
        (fun _ _ => Except.ok { choices := [noContentChoice] }) =
      Outcome.resp { status := 500, body := "content is empty" } :=
  (c8_no_content ctxNoPh helloReq 0
    (fun _ _ => Except.ok { choices := [noContentChoice] })
    ctxNoPh.system_template { choices := [noContentChoice] } noContentChoice
    rfl (by simp [ctxNoPh]) (fun _ _ => rfl) rfl rfl).1

/-- C9: with a non-empty pool, the handler's outcome is exactly one of
two response shapes — HTTP 200 whose body is the extracted content when
the async block succeeds, or HTTP 500 whose body is the failure's
message when it fails. -/
theorem c9_response_shape (ctx : Context) (req : RichPromptReq) (rand : Nat)
    (upstream : OpenAIClient → CompletionRequest → Except String CreateChatCompletionResponse)
    (hcl : ctx.openai_clients ≠ []) :
    (∃ content, richPromptInner ctx req rand upstream = some (Except.ok content) ∧
       rich_prompt ctx req rand upstream =
         Outcome.resp { status := 200, body := content }) ∨
    (∃ e, richPromptInner ctx req rand upstream = some (Except.error e) ∧
       rich_prompt ctx req rand upstream =
         Outcome.resp { status := 500, body := e }) := by
  have h := inner_ne_none ctx req rand upstream hcl
  cases hinner : richPromptInner ctx req rand upstream with
  | none => exact absurd hinner h
  | some res =>
    cases res with
    | ok content => exact Or.inl ⟨content, rfl, by simp [rich_prompt, hinner]⟩
    | error e => exact Or.inr ⟨e, rfl, by simp [rich_prompt, hinner]⟩

/-- Witness for `c9_response_shape`: with a stub upstream answering one
content-bearing choice, the outcome is one of the two shapes (here the
200 one). -/
theorem c9_response_shape_witness :
    (∃ content,
       richPromptInner ctxNoPh helloReq 0 (fun _ _ => Except.ok okResponse) =
         some (Except.ok content) ∧
       rich_prompt ctxNoPh helloReq 0 (fun _ _ => Except.ok okResponse) =
         Outcome.resp { status := 200, body := content }) ∨
    (∃ e,
       richPromptInner ctxNoPh helloReq 0 (fun _ _ => Except.ok okResponse) =
         some (Except.error e) ∧
       rich_prompt ctxNoPh helloReq 0 (fun _ _ => Except.ok okResponse) =
         Outcome.resp { status := 500, body := e }) :=
  c9_response_shape ctxNoPh helloReq 0 (fun _ _ => Except.ok okResponse)
    (by simp [ctxNoPh])

/-- C10: the random index is always below the pool size, so with a
non-empty pool the slice indexing is in bounds and the handler never
panics; with an empty pool, a request whose render succeeds panics at
`gen_range` — it is not turned into any HTTP response, 500 included. -/
theorem c10_selection (ctx : Context) (req : RichPromptReq) (rand : Nat)
    (upstream : OpenAIClient → CompletionRequest → Except String CreateChatCompletionResponse) :
    (∀ i, genRange rand ctx.openai_clients.length = some i →
       i < ctx.openai_clients.length ∧ ctx.openai_clients[i]? ≠ none) ∧
    (ctx.openai_clients ≠ [] →
       rich_prompt ctx req rand upstream ≠ Outcome.panic) ∧
    (ctx.openai_clients = [] →
       (∃ sys, renderSystem ctx req.style = Except.ok sys) →
       rich_prompt ctx req rand upstream = Outcome.panic ∧
       ∀ r, rich_prompt ctx req rand upstream ≠ Outcome.resp r) := by
  refine ⟨?_, ?_, ?_⟩
  · intro i hi
    unfold genRange at hi
    by_cases h0 : ctx.openai_clients.length = 0
    · simp [h0] at hi
    · rw [if_neg h0] at hi
      have hlt : i < ctx.openai_clients.length := by
        cases hi
        exact Nat.mod_lt _ (Nat.pos_of_ne_zero h0)
      obtain ⟨cl, hget⟩ := getElem?_pool ctx i hlt
      exact ⟨hlt, by simp [hget]⟩
  · intro hcl hcontra
    have h := inner_ne_none ctx req rand upstream hcl
    unfold rich_prompt at hcontra
    cases hinner : richPromptInner ctx req rand upstream with
    | none => exact h hinner
    | some res => rw [hinner] at hcontra; cases res <;> simp at hcontra
  · intro hcl hren
    obtain ⟨sys, hren⟩ := hren
    have h1 : rich_prompt ctx req rand upstream = Outcome.panic := by
      simp [rich_prompt, richPromptInner, hren, genRange, hcl]
    exact ⟨h1, fun r hcontra => by rw [h1] at hcontra; cases hcontra⟩

/-- Witness for `c10_selection`: with an empty pool and no style, the
request panics. -/
theorem c10_selection_witness :
    rich_prompt (mkContext emptyKeysConfig) helloReq 0
        (fun _ _ => Except.ok okResponse) = Outcome.panic :=
  ((c10_selection (mkContext emptyKeysConfig) helloReq 0
      (fun _ _ => Except.ok okResponse)).2.2 rfl
    ⟨(mkContext emptyKeysConfig).system_template, rfl⟩).1

end RichPrompt
